import Mathlib

set_option maxRecDepth 16384

/-!
Shallow embedding of `glucometerutils` (files `glucometer.py` and
`glucometerutils/common.py`) and verification of its specification.

Modelling conventions:
* Python floats are modelled as rationals (`ℚ`); Python's `round`
  (round-half-to-even, a.k.a. banker's rounding) is modelled by
  `roundHalfEven` / `pyRound` below.
* Python `datetime.datetime` values are modelled by the `Datetime`
  structure (year/month/day/hour/minute/second), with Python's total
  (lexicographic) comparison order.
* Python `enum.Enum` classes become inductive types.  Note that a Python
  `enum.Enum` member compares unequal (via `==`) to every plain string,
  including its own `.value`: `Enum` inherits identity-based equality.
  This semantics is captured by `measurementMethodPyEqStr`.
-/

namespace Glucometerutils

/-- `class Unit(enum.Enum)` from `common.py`: the two glucose units. -/
inductive GUnit
  | MG_DL
  | MMOL_L
  deriving DecidableEq, Repr

/-- `class Meal(enum.Enum)` from `common.py`. -/
inductive Meal
  | NONE
  | BEFORE
  | AFTER
  deriving DecidableEq, Repr

/-- `Meal.value`: the string value attached to each member. -/
def Meal.pyValue : Meal → String
  | .NONE => ""
  | .BEFORE => "Before Meal"
  | .AFTER => "After Meal"

/-- `class MeasurementMethod(enum.Enum)` from `common.py`. -/
inductive MeasurementMethod
  | BLOOD_SAMPLE
  | CGM
  deriving DecidableEq, Repr

/-- `MeasurementMethod.value`. -/
def MeasurementMethod.pyValue : MeasurementMethod → String
  | .BLOOD_SAMPLE => "blood sample"
  | .CGM => "CGM"

/-- Python `==` between a `MeasurementMethod` enum member and a `str`.
`enum.Enum` does not override equality against other types, so a member
is never `==` to a plain string (not even to its own `.value`); the
comparison falls back to identity and is always `False`. -/
def measurementMethodPyEqStr (_m : MeasurementMethod) (_s : String) : Bool :=
  false

/-- Python `round` to an integer: round half to even (banker's rounding),
on the exact rational value. -/
def roundHalfEven (x : ℚ) : ℤ :=
  let f : ℤ := ⌊x⌋
  let frac : ℚ := x - f
  if frac < 1/2 then f
  else if 1/2 < frac then f + 1
  else if f % 2 = 0 then f else f + 1

/-- Python `round(x, n)` for `n ≥ 0`: round half to even at `n` decimal
digits. -/
def pyRound (x : ℚ) (n : ℕ) : ℚ :=
  (roundHalfEven (x * 10 ^ n) : ℚ) / 10 ^ n

/-- `convert_glucose_unit(value, from_unit, to_unit)` from `common.py`.
(The source first coerces both arguments through `Unit(...)`, which is the
identity on enum members; here the arguments are already `GUnit`s.) -/
def convert_glucose_unit (value : ℚ) (from_unit to_unit : GUnit) : ℚ :=
  if from_unit = to_unit then value
  else if from_unit = GUnit.MG_DL then pyRound (value / 18) 2
  else pyRound (value * 18) 0

/-- Python `datetime.datetime`, to second granularity (no reading in this
program carries sub-second precision). -/
structure Datetime where
  year : ℕ
  month : ℕ
  day : ℕ
  hour : ℕ
  minute : ℕ
  second : ℕ
  deriving DecidableEq, Repr

/-- Python's `datetime < datetime`: lexicographic on the components. -/
def Datetime.ltb (a b : Datetime) : Bool :=
  if a.year ≠ b.year then decide (a.year < b.year)
  else if a.month ≠ b.month then decide (a.month < b.month)
  else if a.day ≠ b.day then decide (a.day < b.day)
  else if a.hour ≠ b.hour then decide (a.hour < b.hour)
  else if a.minute ≠ b.minute then decide (a.minute < b.minute)
  else decide (a.second < b.second)

/-- Python's `datetime <= datetime`: lexicographic on the components. -/
def Datetime.leb (a b : Datetime) : Bool :=
  if a.year ≠ b.year then decide (a.year < b.year)
  else if a.month ≠ b.month then decide (a.month < b.month)
  else if a.day ≠ b.day then decide (a.day < b.day)
  else if a.hour ≠ b.hour then decide (a.hour < b.hour)
  else if a.minute ≠ b.minute then decide (a.minute < b.minute)
  else decide (a.second ≤ b.second)

/-- A natural number zero-padded to two digits (`%m`, `%d`, `%H`, `%M`). -/
def pad2 (n : ℕ) : String :=
  if n < 10 then "0" ++ toString n else toString n

/-- A natural number zero-padded to four digits (`%Y`). -/
def pad4 (n : ℕ) : String :=
  if n < 10 then "000" ++ toString n
  else if n < 100 then "00" ++ toString n
  else if n < 1000 then "0" ++ toString n
  else toString n

/-- `'{:%Y/%m/%d %H:%M}'.format(timestamp)`, the timestamp format used by
both `as_tsv` methods. -/
def Datetime.strftimeSlash (d : Datetime) : String :=
  pad4 d.year ++ "/" ++ pad2 d.month ++ "/" ++ pad2 d.day ++ " "
    ++ pad2 d.hour ++ ":" ++ pad2 d.minute

/-- Python `str()` of a datetime (as interpolated by `"%s"` in `as_csv`):
`YYYY-MM-DD HH:MM:SS`. -/
def Datetime.pyStr (d : Datetime) : String :=
  pad4 d.year ++ "-" ++ pad2 d.month ++ "-" ++ pad2 d.day ++ " "
    ++ pad2 d.hour ++ ":" ++ pad2 d.minute ++ ":" ++ pad2 d.second

/-- Decimal digits of the fractional part `r / d`, most significant first;
the fuel bounds the number of emitted digits. -/
def fracDigits : ℕ → ℕ → ℕ → List Char
  | 0, _, _ => []
  | _ + 1, 0, _ => []
  | fuel + 1, r, d =>
    Char.ofNat (48 + (r * 10) / d) :: fracDigits fuel ((r * 10) % d) d

/-- Python `str()` of a float, on the rational model: sign, integer part,
decimal point, then the fractional digits (`"0"` when the value is
integral, as Python prints e.g. `5.0`).  Finite expansions (the only ones
this program produces: every value has been rounded to a power-of-ten
denominator) are rendered exactly; 17 digits bound the expansion like the
double-precision repr does. -/
def pyFloatStr (q : ℚ) : String :=
  let sign := if q < 0 then "-" else ""
  let a := q.num.natAbs
  let d := q.den
  let digits := fracDigits 17 (a % d) d
  sign ++ toString (a / d) ++ "." ++ (if digits = [] then "0" else String.mk digits)

/-- Python `'%.2f' % q`: round half to even at two decimals, always
printing exactly two fractional digits. -/
def pyFormatF2 (q : ℚ) : String :=
  let k := roundHalfEven (q * 100)
  let sign := if k < 0 then "-" else ""
  let a := k.natAbs
  sign ++ toString (a / 100) ++ "." ++ pad2 (a % 100)

/-- `class GlucoseReading(_ReadingBase)` from `common.py`.  The value is
stored in mg/dL; `meal` is attached by the constructor via `setattr`. -/
structure GlucoseReading where
  timestamp : Datetime
  value : ℚ
  meal : Meal := Meal.NONE
  comment : String := ""
  measure_method : MeasurementMethod := MeasurementMethod.BLOOD_SAMPLE
  deriving DecidableEq, Repr

/-- `GlucoseReading.get_value_as(to_unit)`: converts the stored mg/dL
value. -/
def GlucoseReading.get_value_as (r : GlucoseReading) (to_unit : GUnit) : ℚ :=
  convert_glucose_unit r.value GUnit.MG_DL to_unit

/-- `GlucoseReading._get_libre_type()`.  The source compares
`self.measure_method == 'CGM'` and `== 'blood sample'`: both operands go
through `measurementMethodPyEqStr`, Python's enum-vs-string `==`. -/
def GlucoseReading._get_libre_type (r : GlucoseReading) : String :=
  if measurementMethodPyEqStr r.measure_method "CGM" then
    if r.comment.startsWith "(Sensor)" then "0"
    else if r.comment.startsWith "(Scan)" then "1"
    else "-1"
  else if measurementMethodPyEqStr r.measure_method "blood sample" then
    if r.comment.startsWith "(Blood)" then "2"
    else "-1"
  else "-1"

/-- `GlucoseReading._get_libre_historic_glucose(unit)`:
`str(round(self.get_value_as(unit), 1))` when the Libre type is `"0"`,
else the empty string. -/
def GlucoseReading._get_libre_historic_glucose
    (r : GlucoseReading) (unit : GUnit) : String :=
  if r._get_libre_type = "0" then pyFloatStr (pyRound (r.get_value_as unit) 1)
  else ""

/-- `GlucoseReading._get_libre_scan_glucose(unit)`. -/
def GlucoseReading._get_libre_scan_glucose
    (r : GlucoseReading) (unit : GUnit) : String :=
  if r._get_libre_type = "1" then pyFloatStr (pyRound (r.get_value_as unit) 1)
  else ""

/-- `GlucoseReading._get_libre_strip_glucose(unit)`. -/
def GlucoseReading._get_libre_strip_glucose
    (r : GlucoseReading) (unit : GUnit) : String :=
  if r._get_libre_type = "2" then pyFloatStr (pyRound (r.get_value_as unit) 1)
  else ""

/-- `GlucoseReading.as_csv(unit)`:
`'"%s","%.2f","%s","%s","%s"' % (timestamp, value, meal, method, comment)`. -/
def GlucoseReading.as_csv (r : GlucoseReading) (unit : GUnit) : String :=
  "\"" ++ r.timestamp.pyStr ++ "\",\"" ++ pyFormatF2 (r.get_value_as unit)
    ++ "\",\"" ++ r.meal.pyValue ++ "\",\"" ++ r.measure_method.pyValue
    ++ "\",\"" ++ r.comment ++ "\""

/-- `GlucoseReading.as_tsv(unit)`: the format string is
`"%s\t%s\t%s\t%s\t\t\t\t\t\t\t\t%s\t\t\t\t\t\t\t"` applied to the
formatted timestamp, the Libre type, and the historic/scan/strip glucose
strings (eight tabs between the scan and strip slots, seven after the
strip slot). -/
def GlucoseReading.as_tsv (r : GlucoseReading) (unit : GUnit) : String :=
  r.timestamp.strftimeSlash ++ "\t" ++ r._get_libre_type ++ "\t"
    ++ r._get_libre_historic_glucose unit ++ "\t"
    ++ r._get_libre_scan_glucose unit ++ "\t\t\t\t\t\t\t\t"
    ++ r._get_libre_strip_glucose unit ++ "\t\t\t\t\t\t\t"

/-- `class KetoneReading(_ReadingBase)` from `common.py`; the constructor
fixes `measure_method` to `BLOOD_SAMPLE`. -/
structure KetoneReading where
  timestamp : Datetime
  value : ℚ
  comment : String := ""
  deriving DecidableEq, Repr

/-- The `measure_method` field fixed by the `KetoneReading` constructor. -/
def KetoneReading.measure_method (_r : KetoneReading) : MeasurementMethod :=
  MeasurementMethod.BLOOD_SAMPLE

/-- `KetoneReading.get_value_as(*args)`: returns the stored value; the
starred argument list (here the requested unit) is ignored entirely. -/
def KetoneReading.get_value_as (r : KetoneReading) (_args : GUnit) : ℚ :=
  r.value

/-- `KetoneReading.as_csv(unit)`:
`'"%s","%.2f","%s","%s"' % (timestamp, value, method, comment)`. -/
def KetoneReading.as_csv (r : KetoneReading) (unit : GUnit) : String :=
  "\"" ++ r.timestamp.pyStr ++ "\",\"" ++ pyFormatF2 (r.get_value_as unit)
    ++ "\",\"" ++ r.measure_method.pyValue ++ "\",\"" ++ r.comment ++ "\""

/-- `KetoneReading.as_tsv(unit)`: the format string is
`"%s\t%s\t\t\t\t\t\t\t\t\t\t\t%s\t\t\t\t\t\t"` applied to the formatted
timestamp, the constant `"3"`, and the value (eleven tabs between the
type code and the value slot, six after it). -/
def KetoneReading.as_tsv (r : KetoneReading) (unit : GUnit) : String :=
  r.timestamp.strftimeSlash ++ "\t" ++ "3" ++ "\t\t\t\t\t\t\t\t\t\t\t"
    ++ pyFloatStr (r.get_value_as unit) ++ "\t\t\t\t\t\t"

/-- A reading produced by a driver: either kind from `common.py`. -/
inductive Reading
  | glucose (g : GlucoseReading)
  | ketone (k : KetoneReading)
  deriving DecidableEq, Repr

/-- `reading.timestamp` on either reading kind. -/
def Reading.timestamp : Reading → Datetime
  | .glucose g => g.timestamp
  | .ketone k => k.timestamp

/-- `reading.as_tsv(unit)` dispatched on the reading kind. -/
def Reading.as_tsv : Reading → GUnit → String
  | .glucose g, u => g.as_tsv u
  | .ketone k, u => k.as_tsv u

/-- `reading.as_csv(unit)` dispatched on the reading kind. -/
def Reading.as_csv : Reading → GUnit → String
  | .glucose g, u => g.as_csv u
  | .ketone k, u => k.as_csv u

/-- The future-date filter of `glucometer.py`'s dump-to-file branch:
`(reading for reading in readings if not reading.timestamp > datetime.datetime.now())`
(`now` modelled as one fixed instant; `x > y` is `y < x`). -/
def filterFutureReadings (now : Datetime) (readings : List Reading) : List Reading :=
  readings.filter (fun reading => !(Datetime.ltb now reading.timestamp))

/-- Modelled from the spec: `common.UNIT_MMOLL` is referenced by
`glucometer.py` (`unit = common.UNIT_MMOLL  #args.unit`) but not defined
in `src/glucometerutils/common.py`; the spec states the dump unit is
"overridden unconditionally to MMOL_L", so the constant denotes the
mmol/L unit. -/
def UNIT_MMOLL : GUnit := GUnit.MMOL_L

/-- The unit selection at the top of the `dump` branch of `glucometer.py`:
`unit = common.UNIT_MMOLL  #args.unit` (the read of `args.unit` is
commented out), then `if unit is None: unit = device_info.native_unit`. -/
def dumpUnit (_argsUnit : Option GUnit) (nativeUnit : GUnit) : GUnit :=
  let unit : Option GUnit := some UNIT_MMOLL
  match unit with
  | none => nativeUnit
  | some u => u

/-- The body of the row loop of the dump-to-file branch, one line per
reading: `str(rowid) + "\t"`, then `reading.as_tsv(unit)`; `rowid` starts
at 1 and increments per row. -/
def rowLines (unit : GUnit) : List Reading → ℕ → List String
  | [], _ => []
  | reading :: rest, rowid =>
    (toString rowid ++ "\t" ++ reading.as_tsv unit) :: rowLines unit rest (rowid + 1)

/-- The row loop itself, which additionally terminates every row with
`"\r\n"`. -/
def tsvRows (unit : GUnit) : List Reading → ℕ → String
  | [], _ => ""
  | reading :: rest, rowid =>
    toString rowid ++ "\t" ++ reading.as_tsv unit ++ "\r\n"
      ++ tsvRows unit rest (rowid + 1)

/-- Everything the dump-to-file branch writes to the output file, in
order: the uploader/ID preamble, the four column-header write calls, then
the rows.  Written exactly as the `outputfile.write` calls in
`glucometer.py`. -/
def tsvFileContent (unit : GUnit) (readings : List Reading) : String :=
  "Some guy\r\n# 000000001\r\n"
    ++ "ID\tTime\tRecord Type\tHistoric Glucose (mmol/L)\tScan Glucose (mmol/L)\tNon-numeric Rapid-Acting Insulin\t"
    ++ "Rapid-Acting Insulin (units)\tNon-numeric Food\tCarbohydrates (grams)\tNon-numeric Long-Acting Insulin\t"
    ++ "Long-Acting Insulin (units)\tNotes\tStrip Glucose (mmol/L)\tKetone (mmol/L)\tMeal Insulin (units)\t"
    ++ "Correction Insulin (units)\tUser Change Insulin (units)\tPrevious Time\tUpdated Time\r\n"
    ++ tsvRows unit readings 1

/-- The column-header line of the export file (the four header `write`
calls concatenated, without the final CRLF). -/
def tsvHeaderLine : String :=
  "ID\tTime\tRecord Type\tHistoric Glucose (mmol/L)\tScan Glucose (mmol/L)\tNon-numeric Rapid-Acting Insulin\tRapid-Acting Insulin (units)\tNon-numeric Food\tCarbohydrates (grams)\tNon-numeric Long-Acting Insulin\tLong-Acting Insulin (units)\tNotes\tStrip Glucose (mmol/L)\tKetone (mmol/L)\tMeal Insulin (units)\tCorrection Insulin (units)\tUser Change Insulin (units)\tPrevious Time\tUpdated Time"

/-- Terminate every element with CRLF and concatenate: a string made of
exactly the given lines. -/
def joinLines (ls : List String) : String :=
  ls.foldr (fun l acc => l ++ "\r\n" ++ acc) ""

/-- Occurrences of the carriage return in a string. -/
def countCR (s : String) : ℕ := s.data.count '\r'

/-- Split a character list at every tab. -/
def splitTabAux : List Char → List (List Char)
  | [] => [[]]
  | c :: rest =>
    if c = '\t' then [] :: splitTabAux rest
    else
      match splitTabAux rest with
      | [] => [[c]]
      | l :: ls => (c :: l) :: ls

/-- Split a string at every tab: the list of its tab-separated fields. -/
def splitTab (s : String) : List String :=
  (splitTabAux s.data).map String.mk

/-- The export-file shape asserted by the spec: a fixed two-line header —
an uploader name/ID line, then a single line of 18 tab-separated column
headers — followed by exactly one row per exported reading, each line
CRLF-terminated. -/
def tsvFileTwoLineHeaderShape (unit : GUnit) (readings : List Reading) : Prop :=
  ∃ (uploaderLine headerLine : String) (rows : List String),
    countCR uploaderLine = 0 ∧ countCR headerLine = 0 ∧
    (∀ row ∈ rows, countCR row = 0) ∧
    (splitTab headerLine).length = 18 ∧
    rows.length = readings.length ∧
    tsvFileContent unit readings = joinLines ([uploaderLine, headerLine] ++ rows)

/-- The possible subcommands (`argparse` dest `action`). -/
inductive Action
  | help
  | info
  | zero
  | dump
  | datetime
  deriving DecidableEq, Repr

/-- The parsed command line, restricted to the fields that influence
`main`'s return value.  `action` is `none` when no subcommand was given;
`setArg` is the `datetime --set` argument (`none` absent, `some "now"`
for a bare `--set`, the raw date string otherwise). -/
structure Args where
  action : Option Action
  setArg : Option String := none
  deriving DecidableEq, Repr

/-- The outside world as `main` observes it: whether the driver module
loads, whether the device operation of the chosen action raises a
domain error (`exceptions.Error`, caught by the top-level handler),
whether `dateutil` is importable, whether it parses the `--set` string,
and the reply typed at the zero-log prompt. -/
structure Env where
  driverImportOk : Bool
  actionError : Bool
  dateutilAvailable : Bool
  dateParses : Bool
  zeroConfirmInput : String
  deriving DecidableEq, Repr

/-- `confirm.lower() in ['y', 'ye', 'yes']`. -/
def zeroConfirmed (e : Env) : Bool :=
  e.zeroConfirmInput.toLower = "y" || e.zeroConfirmInput.toLower = "ye"
    || e.zeroConfirmInput.toLower = "yes"

/-- The return value of `main()`: `some c` for an explicit `return c`,
`none` for falling off the end of the function (Python `None`).  Mirrors
the branch structure of `glucometer.py` (the domain-error check stands
for the top-level `except exceptions.Error` handler around the action
body; for `datetime --set` the source would report a date error before a
device error, which returns the same value). -/
def mainReturn (a : Args) (e : Env) : Option ℤ :=
  if e.driverImportOk = false then some 1
  else
    match a.action with
    | some Action.help => some 0
    | none => some 1
    | some act =>
      if e.actionError then some 1
      else
        match act, a.setArg with
        | Action.help, _ => some 0
        | Action.info, _ => none
        | Action.dump, _ => none
        | Action.datetime, some s =>
          if s = "now" then none
          else if e.dateutilAvailable = false then some 1
          else if e.dateParses = false then some 1
          else none
        | Action.datetime, none => none
        | Action.zero, _ =>
          if zeroConfirmed e then none else some 1

/-- The `if __name__ == "__main__": main()` block of `glucometer.py`:
the value returned by `main()` is discarded, so a run that raises no
unhandled exception makes the interpreter exit with status 0. -/
def mainExitCode (a : Args) (e : Env) : ℤ :=
  let _ := mainReturn a e
  0

end Glucometerutils

namespace Glucometerutils

/-- One component of the lexicographic comparison: negating a strict step
yields the mirrored step of the non-strict comparison. -/
theorem lex_not_step (x y : ℕ) (p q : Bool) (hpq : (!p) = q) :
    (!(if x ≠ y then decide (x < y) else p))
      = (if y ≠ x then decide (y < x) else q) := by
  by_cases e : x = y
  · subst e
    rw [if_neg (not_not_intro rfl), if_neg (not_not_intro rfl), hpq]
  · rw [if_pos e, if_pos (Ne.symm e), ← decide_not]
    exact decide_eq_decide.mpr (by omega)

/-- Python's datetime order is total: `not (a < b)` is `b <= a`. -/
theorem Datetime.not_ltb (a b : Datetime) :
    (!(Datetime.ltb a b)) = Datetime.leb b a := by
  unfold Datetime.ltb Datetime.leb
  refine lex_not_step _ _ _ _ ?_
  refine lex_not_step _ _ _ _ ?_
  refine lex_not_step _ _ _ _ ?_
  refine lex_not_step _ _ _ _ ?_
  refine lex_not_step _ _ _ _ ?_
  rw [← decide_not]
  exact decide_eq_decide.mpr (by omega)

theorem roundHalfEven_sub_abs_le (x : ℚ) : |(roundHalfEven x : ℚ) - x| ≤ 1/2 := by
  have h0 : (0:ℚ) ≤ x - ⌊x⌋ := by
    have := Int.floor_le x
    linarith
  have h1 : x - ⌊x⌋ < 1 := by
    have := Int.lt_floor_add_one x
    push_cast at this ⊢
    linarith
  unfold roundHalfEven
  by_cases hlt : x - (⌊x⌋ : ℚ) < 1/2
  · simp only [hlt, if_true]
    rw [abs_le]
    constructor <;> linarith
  · by_cases hgt : (1:ℚ)/2 < x - (⌊x⌋ : ℚ)
    · simp only [hlt, hgt, if_false, if_true]
      rw [abs_le]
      push_cast
      constructor <;> linarith
    · have heq : x - (⌊x⌋ : ℚ) = 1/2 := by linarith
      by_cases hpar : (⌊x⌋ : ℤ) % 2 = 0
      · simp only [hlt, hgt, hpar, if_false, if_true]
        rw [abs_le]
        constructor <;> linarith
      · simp only [hlt, hgt, hpar, if_false]
        rw [abs_le]
        push_cast
        constructor <;> linarith

theorem pyRound_sub_abs_le (x : ℚ) (n : ℕ) :
    |pyRound x n - x| ≤ 1 / (2 * 10 ^ n) := by
  have hpow : (0:ℚ) < 10 ^ n := by positivity
  have h := roundHalfEven_sub_abs_le (x * 10 ^ n)
  unfold pyRound
  have key : (roundHalfEven (x * 10 ^ n) : ℚ) / 10 ^ n - x
      = ((roundHalfEven (x * 10 ^ n) : ℚ) - x * 10 ^ n) / 10 ^ n := by
    field_simp
    ring
  rw [key, abs_div, abs_of_pos hpow, div_le_div_iff₀ hpow (by positivity)]
  calc |(roundHalfEven (x * 10 ^ n) : ℚ) - x * 10 ^ n| * (2 * 10 ^ n)
      ≤ (1/2) * (2 * 10 ^ n) := by
        apply mul_le_mul_of_nonneg_right h
        positivity
    _ = 1 * 10 ^ n := by ring

/-- C2: `convert` applies `round(value/18.0, 2)` from mg/dL to mmol/L,
`round(value*18.0, 0)` from mmol/L to mg/dL, and is the identity when the
units coincide. -/
theorem convert_formulas (v : ℚ) :
    convert_glucose_unit v GUnit.MG_DL GUnit.MMOL_L = pyRound (v / 18) 2 ∧
    convert_glucose_unit v GUnit.MMOL_L GUnit.MG_DL = pyRound (v * 18) 0 ∧
    (∀ u : GUnit, convert_glucose_unit v u u = v) := by
  refine ⟨rfl, rfl, ?_⟩
  intro u
  cases u <;> rfl

/-- C3: `convert(v, A, A) == v` exactly, for both units. -/
theorem convert_identity (v : ℚ) (u : GUnit) :
    convert_glucose_unit v u u = v := by
  cases u <;> rfl

/-- C4: the round trip through the other unit recovers the value within
the tolerance induced by the two roundings: starting from mg/dL the error
is at most 0.5 + 18·0.005 = 59/100; starting from mmol/L it is at most
1/36 + 1/200 = 59/1800. -/
theorem convert_round_trip (v : ℚ) :
    |convert_glucose_unit
        (convert_glucose_unit v GUnit.MG_DL GUnit.MMOL_L)
        GUnit.MMOL_L GUnit.MG_DL - v| ≤ 59/100 ∧
    |convert_glucose_unit
        (convert_glucose_unit v GUnit.MMOL_L GUnit.MG_DL)
        GUnit.MG_DL GUnit.MMOL_L - v| ≤ 59/1800 := by
  constructor
  · have h1 := pyRound_sub_abs_le (v / 18) 2
    have h2 := pyRound_sub_abs_le (pyRound (v / 18) 2 * 18) 0
    rw [abs_le] at h1 h2 ⊢
    have e1 : convert_glucose_unit v GUnit.MG_DL GUnit.MMOL_L
        = pyRound (v / 18) 2 := rfl
    have e2 : convert_glucose_unit (pyRound (v / 18) 2) GUnit.MMOL_L GUnit.MG_DL
        = pyRound (pyRound (v / 18) 2 * 18) 0 := rfl
    rw [e1, e2]
    norm_num at h1 h2
    constructor <;> linarith
  · have h1 := pyRound_sub_abs_le (v * 18) 0
    have h2 := pyRound_sub_abs_le (pyRound (v * 18) 0 / 18) 2
    rw [abs_le] at h1 h2 ⊢
    have e1 : convert_glucose_unit v GUnit.MMOL_L GUnit.MG_DL
        = pyRound (v * 18) 0 := rfl
    have e2 : convert_glucose_unit (pyRound (v * 18) 0) GUnit.MG_DL GUnit.MMOL_L
        = pyRound (pyRound (v * 18) 0 / 18) 2 := rfl
    rw [e1, e2]
    norm_num at h1 h2
    constructor <;> linarith

/-- Whatever the measure method and the comment, `_get_libre_type` returns
`"-1"`: the comparisons `self.measure_method == 'CGM'` and
`== 'blood sample'` compare an enum member with a string, which in Python
is always `False`, so neither branch that could produce `"0"`, `"1"` or
`"2"` is ever entered. -/
theorem _get_libre_type_always_unrecognized (r : GlucoseReading) :
    r._get_libre_type = "-1" := rfl

/-- The CGM sensor reading from the spec's own TSV example. -/
def sensorReading : GlucoseReading :=
  { timestamp := ⟨2017, 1, 1, 12, 0, 0⟩
    value := 100
    meal := Meal.NONE
    comment := "(Sensor) foo"
    measure_method := MeasurementMethod.CGM }

/-- C1: on the spec's example — a CGM reading with comment
`"(Sensor) foo"` and value 100 mg/dL, exported as TSV in mmol/L — the code
emits record type `"-1"` with every glucose value column blank, not record
type `"0"` with `"5.6"` in the historic column: `_get_libre_type` compares
the `MeasurementMethod` enum member against the strings `'CGM'` /
`'blood sample'`, and a Python enum member is never `==` to a string, so
the `"0"`/`"1"`/`"2"` branches are unreachable. -/
theorem glucose_as_tsv_sensor_example_bug :
    sensorReading._get_libre_type = "-1" ∧
    sensorReading.as_tsv GUnit.MMOL_L
      = "2017/01/01 12:00\t-1\t\t\t\t\t\t\t\t\t\t\t\t\t\t\t\t\t" ∧
    sensorReading._get_libre_historic_glucose GUnit.MMOL_L = "" := by
  refine ⟨rfl, ?_, rfl⟩
  rfl

/-- C8: the dump-to-file filter keeps exactly the readings whose timestamp
is less than or equal to `now`, skipping every reading timestamped
strictly after `now`. -/
theorem filterFutureReadings_keeps_iff_le (now : Datetime) (rs : List Reading) :
    filterFutureReadings now rs
      = rs.filter (fun r => Datetime.leb r.timestamp now) := by
  unfold filterFutureReadings
  simp [Datetime.not_ltb]

/-- C9: for every ketone reading and every requested unit, `as_tsv`
produces a row of 19 tab-separated fields whose second field is the fixed
type code `"3"`, whose thirteenth field (the ketone column of the export
template, column 14 once the row id is prepended) carries the stored
value, and whose other fields are blank apart from the timestamp. -/
theorem ketone_as_tsv_row (r : KetoneReading) (u : GUnit) :
    r.as_tsv u = String.intercalate "\t"
      [r.timestamp.strftimeSlash, "3", "", "", "", "", "", "", "", "", "", "",
        pyFloatStr r.value, "", "", "", "", "", ""] := by
  apply String.ext
  simp [KetoneReading.as_tsv, KetoneReading.get_value_as,
    String.intercalate, String.intercalate.go, String.data_append]

/-- C10: `KetoneReading.get_value_as` ignores its unit argument and
returns the stored value, so `as_csv` and `as_tsv` render the stored
mmol/L value even when mg/dL output is requested. -/
theorem ketone_get_value_as_ignores_unit (r : KetoneReading) (u : GUnit) :
    r.get_value_as u = r.value ∧
    r.as_csv GUnit.MG_DL = r.as_csv GUnit.MMOL_L ∧
    r.as_tsv GUnit.MG_DL = r.as_tsv GUnit.MMOL_L :=
  ⟨rfl, rfl, rfl⟩

/-- C5: for every `dump` invocation the serialization unit is mmol/L,
regardless of the `--unit` argument and of the device's native unit. -/
theorem dumpUnit_always_mmol (argsUnit : Option GUnit) (nativeUnit : GUnit) :
    dumpUnit argsUnit nativeUnit = GUnit.MMOL_L := rfl

/-- The run used to refute C6: `info` with a failing driver import. -/
def c6Args : Args := { action := some Action.info }

/-- The environment of that run. -/
def c6Env : Env :=
  { driverImportOk := false, actionError := false, dateutilAvailable := true
    dateParses := true, zeroConfirmInput := "" }

/-- C6 (counterexample): a driver-import failure is a handled error —
`main` returns 1 — yet the process exit code is 0, not 1, because the
`__main__` block discards `main`'s return value. -/
theorem main_exit_code_counterexample :
    mainReturn c6Args c6Env = some 1 ∧ mainExitCode c6Args c6Env ≠ 1 ∧
      mainExitCode c6Args c6Env = 0 :=
  ⟨rfl, by decide, rfl⟩

/-- C6 (amended): `main()` returns 1 on every handled error — a driver
that fails to load, missing subcommand, a domain error from the driver,
a missing `dateutil` dependency, an unparsable `--set` date — and when
the user declines the zero-log confirmation; it returns 0 for `help` and
`None` for the other successful actions.  The `__main__` block discards
this value, so the process exit code is 0 on every run that raises no
unhandled exception. -/
theorem main_return_codes (a : Args) (e : Env) :
    mainExitCode a e = 0 ∧
    (e.driverImportOk = false → mainReturn a e = some 1) ∧
    (e.driverImportOk = true → a.action = none → mainReturn a e = some 1) ∧
    (e.driverImportOk = true → ∀ act, a.action = some act → act ≠ Action.help →
      e.actionError = true → mainReturn a e = some 1) ∧
    (e.driverImportOk = true → a.action = some Action.datetime →
      e.actionError = false → ∀ s, a.setArg = some s → s ≠ "now" →
      e.dateutilAvailable = false → mainReturn a e = some 1) ∧
    (e.driverImportOk = true → a.action = some Action.datetime →
      e.actionError = false → ∀ s, a.setArg = some s → s ≠ "now" →
      e.dateutilAvailable = true → e.dateParses = false →
      mainReturn a e = some 1) ∧
    (e.driverImportOk = true → a.action = some Action.zero →
      e.actionError = false → zeroConfirmed e = false →
      mainReturn a e = some 1) ∧
    (e.driverImportOk = true → a.action = some Action.help →
      mainReturn a e = some 0) ∧
    (e.driverImportOk = true → e.actionError = false →
      (a.action = some Action.info ∨ a.action = some Action.dump) →
      mainReturn a e = none) := by
  refine ⟨rfl, ?_, ?_, ?_, ?_, ?_, ?_, ?_, ?_⟩
  · intro h
    simp [mainReturn, h]
  · intro h1 h2
    simp [mainReturn, h1, h2]
  · intro h1 act h2 h3 h4
    cases act <;> simp_all [mainReturn]
  · intro h1 h2 h3 s h4 h5 h6
    simp [mainReturn, h1, h2, h3, h4, h5, h6]
  · intro h1 h2 h3 s h4 h5 h6 h7
    simp [mainReturn, h1, h2, h3, h4, h5, h6, h7]
  · intro h1 h2 h3 h4
    simp [mainReturn, h1, h2, h3, h4]
  · intro h1 h2
    simp [mainReturn, h1, h2]
  · intro h1 h2 h3
    rcases h3 with h3 | h3 <;> simp [mainReturn, h1, h2, h3]

/-- Witness for the amended C6 theorem: `datetime --set` with a date
string while `dateutil` is missing makes `main` return 1. -/
theorem main_return_codes_witness :
    mainReturn ⟨some Action.datetime, some "2017-13-45"⟩
      ⟨true, false, false, true, ""⟩ = some 1 :=
  (main_return_codes ⟨some Action.datetime, some "2017-13-45"⟩
      ⟨true, false, false, true, ""⟩).2.2.2.2.1
    rfl rfl rfl "2017-13-45" rfl (by decide) rfl

theorem countCR_append (a b : String) :
    countCR (a ++ b) = countCR a + countCR b := by
  simp [countCR, String.data_append, List.count_append]

/-- C7 (counterexample): the export file does not consist of a two-line
header followed by the rows — already with no readings the file has three
CRLF-terminated lines, so no uploader-line/header-line split of the
spec's shape exists. -/
theorem tsv_two_line_header_refuted :
    ¬ tsvFileTwoLineHeaderShape GUnit.MMOL_L [] := by
  rintro ⟨u, h, rows, hu, hh, -, -, hlen, heq⟩
  have hrows : rows = [] := List.length_eq_zero.mp hlen
  subst hrows
  have h3 : countCR (tsvFileContent GUnit.MMOL_L []) = 3 := rfl
  have hcrlf : countCR "\r\n" = 1 := rfl
  have hemp : countCR "" = 0 := rfl
  rw [heq] at h3
  simp only [List.cons_append, List.nil_append, joinLines, List.foldr_cons,
    List.foldr_nil, countCR_append, hu, hh, hcrlf, hemp] at h3
  omega

/-- C7 (amended): the export file is exactly these CRLF-terminated lines:
the uploader-name line `"Some guy"`, the ID line `"# 000000001"`, the
column-header line of 19 tab-separated headers (the row-id column plus
the 18 reading columns), then one numbered row per exported reading. -/
theorem tsvFileContent_lines (unit : GUnit) (readings : List Reading) :
    tsvFileContent unit readings
      = joinLines (["Some guy", "# 000000001", tsvHeaderLine]
          ++ rowLines unit readings 1) ∧
    (rowLines unit readings 1).length = readings.length ∧
    (splitTab tsvHeaderLine).length = 19 := by
  refine ⟨?_, ?_, rfl⟩
  · have hrows : ∀ (rs : List Reading) (i : ℕ),
        tsvRows unit rs i = joinLines (rowLines unit rs i) := by
      intro rs
      induction rs with
      | nil => intro i; rfl
      | cons r rest ih =>
        intro i
        apply String.ext
        simp [tsvRows, rowLines, joinLines, ih, String.data_append,
          List.append_assoc]
    apply String.ext
    simp [tsvFileContent, joinLines, hrows, String.data_append,
      List.append_assoc, tsvHeaderLine]
  · have hlen : ∀ (rs : List Reading) (i : ℕ),
        (rowLines unit rs i).length = rs.length := by
      intro rs
      induction rs with
      | nil => intro i; rfl
      | cons r rest ih =>
        intro i
        simp [rowLines, ih]
    exact hlen readings 1

end Glucometerutils
